import Mathlib

/-!
# Shallow embedding of the Internet Stability Monitor (`src/main.rs`)

The source is a small Rust/egui application that periodically pings a fixed
target, keeps a bounded buffer of `(elapsed_seconds, response_time_ms)`
samples together with running counters, writes a debounced threshold log
file, and offers a manual export.

Modelling conventions used throughout this file:

* `Instant`s are modelled as rational absolute times (`ℚ`); a `Duration`
  between two instants is their difference.  `Instant::duration_since` /
  `Instant::elapsed` saturate at zero in Rust; wherever a saturating
  difference is compared against a positive constant (`>= 1 s`, `>= 60 s`)
  the saturation is dropped, which is equivalent because the constant is
  positive.  Where the saturation can matter (the manual exporter's window)
  it is kept explicitly as `max 0 _`.
* `f64` latencies are modelled as `ℚ`.  A successful ping records
  `start_time.elapsed().as_millis() as f64`, a whole number of
  milliseconds, so the measured value is carried as a `ℕ` in the probe
  input and cast to `ℚ`; a failed ping records `0.0`.
* The `u64` counter `total_data_sent` is modelled as `ℕ`; it grows by 32
  per probe, so no session remotely approaches `2^64` and wrap-around is
  unreachable.
* Wall-clock timestamp strings produced by `chrono` are opaque inputs of
  each cycle (`stampCompact` for `%Y%m%d%H%M%S`, `stampHuman` for
  `%Y-%m-%d %H:%M:%S`).
* Each spawned probe thread is modelled as one atomic state transition
  (`checkConnectionCycle`).  This is justified by the lock structure of the
  source: the probe thread takes the `response_times` mutex at line 216 and
  holds it until the closure ends, and the spawned log-rendering thread
  first locks `response_times` as well, so the render always observes the
  probing thread's completed cycle (post-push, post-eviction, post
  `total_data_sent += 32`).
* The UI frame-pacing field `last_frame_time` and the egui rendering are
  out of scope and omitted.
-/

namespace InternetMonitor

/-- The fixed probe target, the literal `"google.com"` in the source. -/
def target : String := "google.com"

/-- One retained sample: `(elapsed_seconds, response_time_ms)`, an entry of
the `response_times` vector. -/
abbrev Sample := ℚ × ℚ

/-- The state of the `InternetMonitor` struct (minus the UI-only
`last_frame_time`).  Field names follow the Rust struct. -/
structure MonitorState where
  is_monitoring : Bool
  start_time : Option ℚ
  last_check : Option ℚ
  status : String
  response_times : List Sample
  log_status : Option String
  total_data_sent : ℕ
  longest_response_time : ℚ
  last_log_file_name : Option String
  last_log_time : Option ℚ
deriving DecidableEq, Repr

/-- `InternetMonitor::default()`. -/
def initState : MonitorState where
  is_monitoring := false
  start_time := none
  last_check := none
  status := "Not checked yet"
  response_times := []
  log_status := none
  total_data_sent := 0
  longest_response_time := 0
  last_log_file_name := none
  last_log_time := none

/-- The environment-provided data consumed by one spawned probe thread:
whether `(target, 80).to_socket_addrs()` produced an address, whether
`ping(...)` returned `Ok`, the measured whole milliseconds of the ping,
the `Instant::now()` at which the thread computes `elapsed_since_start`
(also used as the cycle's debounce instant), and the two `chrono`
timestamp strings rendered during the cycle. -/
structure ProbeInput where
  resolved : Bool
  pingOk : Bool
  pingMillis : ℕ
  now : ℚ
  stampCompact : String
  stampHuman : String
deriving DecidableEq, Repr

/-- A threshold-triggered log file: its name, rendered content, and the
instant at which it was created (the instant stored into
`last_log_time`). -/
structure LogFile where
  name : String
  content : String
  time : ℚ
deriving DecidableEq, Repr

/-- Floor of a rational, computed from its (reduced) numerator and
denominator by floor division. -/
def ratFloor (q : ℚ) : ℤ := Int.fdiv q.num (q.den : ℤ)

/-- Rust `{:.0}` formatting of an `f64`: round to the nearest integer,
ties to even. -/
def fmt0 (q : ℚ) : ℤ :=
  let f := ratFloor q
  if q - f < 1/2 then f
  else if 1/2 < q - f then f + 1
  else if f % 2 = 0 then f else f + 1

/-- Rust `f64::round`: round to the nearest integer, ties away from
zero (applied to `elapsed_time` before it is `{:.0}`-formatted). -/
def f64Round (q : ℚ) : ℤ :=
  if 0 ≤ q then ratFloor (q + 1/2) else -ratFloor (-q + 1/2)

/-- One body line of a log file: `"{:.0} s, {:.0} ms\n"` applied to
`(elapsed_time.round(), response_time)`. -/
def sampleLine (p : Sample) : String :=
  toString (f64Round p.1) ++ " s, " ++ toString (fmt0 p.2) ++ " ms\n"

/-- `mean(latency_ms)` over a sample list, `0` when empty — the
`average_response_time` computation, identical in the threshold-log
render thread and in `log_data`. -/
def meanLat (l : List Sample) : ℚ :=
  if l.isEmpty then 0 else (l.map Prod.snd).sum / (l.length : ℚ)

/-- The log text (shared shape of the threshold-log render thread and of
`log_data`): header plus one line per listed sample, or the
`"No data to log."` body when the listed samples are empty.  `lines` is
the sample list actually printed (all retained samples for the automatic
path, the filtered ones for the manual path); `avg`, `longest`, `total`
are the values read at render time. -/
def renderLog (stamp : String) (lines : List Sample) (avg longest : ℚ)
    (total : ℕ) : String :=
  if lines.isEmpty then
    "Log Created: " ++ stamp ++ "\nNo data to log."
  else
    "Log Created: " ++ stamp ++ "\nPing Target: " ++ target ++
      "\nAverage Response Time: " ++ toString (fmt0 avg) ++ " ms" ++
      "\nLongest Response Time: " ++ toString (fmt0 longest) ++ " ms" ++
      "\nTotal Data Sent: " ++ toString total ++ " bytes\n\n" ++
      String.join (lines.map sampleLine)

/-- `response_time_ms`: the measured milliseconds on `Ok`, `0.0` on
ping error. -/
def responseTimeMs (inp : ProbeInput) : ℚ :=
  if inp.pingOk then (inp.pingMillis : ℚ) else 0

/-- The status text written by a probe cycle. -/
def statusMessage (inp : ProbeInput) : String :=
  if 0 < responseTimeMs inp then "Connected to " ++ target ++ "."
  else "Disconnected from " ++ target ++ "."

/-- `elapsed_since_start`: `now - start_time` when a start time exists,
`0.0` otherwise. -/
def elapsedSinceStart (s : MonitorState) (inp : ProbeInput) : ℚ :=
  match s.start_time with
  | some t => inp.now - t
  | none => 0

/-- The sample pushed by a probe cycle. -/
def cycleSample (s : MonitorState) (inp : ProbeInput) : Sample :=
  (elapsedSinceStart s inp, responseTimeMs inp)

/-- The debounce test: `last_log_time.map_or(true, |t| t.elapsed() >=
Duration::from_secs(60))`.  (`elapsed()` saturates at zero; since
`60 > 0` the unsaturated comparison is equivalent.) -/
def debounceOk (s : MonitorState) (now : ℚ) : Bool :=
  match s.last_log_time with
  | none => true
  | some t => decide (60 ≤ now - t)

/-- Whether a probe cycle creates a threshold log: a strict new high-water
mark, above the 175 ms threshold, passing the debounce.  (In the source
the 175 ms and debounce tests are nested inside the new-high-water-mark
branch; the conjunction is the same condition.) -/
def logTrigger (s : MonitorState) (inp : ProbeInput) : Bool :=
  decide (s.longest_response_time < responseTimeMs inp) &&
    decide ((175 : ℚ) < responseTimeMs inp) &&
    debounceOk s inp.now

/-- `format!("log_{}.txt", timestamp)`. -/
def newLogName (inp : ProbeInput) : String :=
  "log_" ++ inp.stampCompact ++ ".txt"

/-- One spawned probe thread (`InternetMonitor::check_connection`'s
closure) as a state transition, returning the new state and the
threshold log file created, if any.

If resolution fails the thread returns before touching any state.
Otherwise, in source order: the status text is written, the sample is
pushed, `longest_response_time` is raised on a strict new maximum (and
inside that branch the threshold log is created subject to the 175 ms
test and the debounce, setting `last_log_file_name` and
`last_log_time`), `total_data_sent` grows by 32, and the front sample is
evicted when the buffer exceeds 100 entries.  The rendered log content is
produced from the completed cycle's state (see the module docstring for
why the render thread observes exactly that snapshot). -/
def checkConnectionCycle (s : MonitorState) (inp : ProbeInput) :
    MonitorState × Option LogFile :=
  if inp.resolved = false then (s, none) else
    let response_time_ms := responseTimeMs inp
    let data1 := s.response_times ++ [cycleSample s inp]
    let doLog := logTrigger s inp
    let s1 : MonitorState :=
      { s with
        status := statusMessage inp
        response_times := if 100 < data1.length then data1.tail else data1
        longest_response_time :=
          if s.longest_response_time < response_time_ms then response_time_ms
          else s.longest_response_time
        last_log_file_name :=
          if doLog then some (newLogName inp) else s.last_log_file_name
        last_log_time := if doLog then some inp.now else s.last_log_time
        total_data_sent := s.total_data_sent + 32 }
    (s1,
      if doLog then
        some
          { name := newLogName inp
            content := renderLog inp.stampHuman s1.response_times
              (meanLat s1.response_times) s1.longest_response_time
              s1.total_data_sent
            time := inp.now }
      else none)

/-- Run a sequence of probe cycles, collecting the created log files in
creation order. -/
def runProbes : MonitorState → List ProbeInput → MonitorState × List LogFile
  | s, [] => (s, [])
  | s, inp :: rest =>
    let r := checkConnectionCycle s inp
    let rr := runProbes r.1 rest
    (rr.1, r.2.toList ++ rr.2)

/-- The creation instants of the log files produced by a probe-cycle
sequence. -/
def creationTimes (s : MonitorState) (l : List ProbeInput) : List ℚ :=
  ((runProbes s l).2).map (fun f => f.time)

/-- The latency recorded by a probe cycle, or `none` for a cycle whose
resolution failed (which records nothing): the claim-side meaning of
"a sample observed". -/
def observedLatency (inp : ProbeInput) : Option ℚ :=
  if inp.resolved then some (responseTimeMs inp) else none

/-- All latencies observed across a probe-cycle sequence, including ones
whose samples are later evicted from the bounded buffer. -/
def observedLatencies (l : List ProbeInput) : List ℚ :=
  l.filterMap observedLatency

/-- Maximum of a latency list, `0` when empty (latencies are never
negative, and `0` is the initial high-water mark). -/
def listMax0 (l : List ℚ) : ℚ := l.foldr max 0

/-- The deferred effect of a `thread::spawn`ed status timer: clear
`log_status` after the given number of seconds. -/
inductive DelayedAction where
  | clearLogStatus (delaySecs : ℕ)
deriving DecidableEq, Repr

/-- Apply a fired status timer. -/
def applyDelayed (s : MonitorState) : DelayedAction → MonitorState
  | .clearLogStatus _ => { s with log_status := none }

/-- The "Clear Data" button handler: stop monitoring, set the status text,
empty the samples, zero `total_data_sent`, set the transient
`"Data cleared"` marker, and spawn a 2-second timer that clears the
marker.  `start_time`, `last_check`, `longest_response_time`,
`last_log_file_name` and `last_log_time` are not touched. -/
def clearData (s : MonitorState) : MonitorState × DelayedAction :=
  ({ s with
      is_monitoring := false
      status := "Not monitoring"
      response_times := []
      total_data_sent := 0
      log_status := some "Data cleared" },
    .clearLogStatus 2)

/-- The start/stop button handler: flip `is_monitoring`; on start, set the
status text and capture `start_time` and `last_check`; on stop, only set
the status text. -/
def toggleMonitoring (s : MonitorState) (now : ℚ) : MonitorState :=
  if s.is_monitoring then
    { s with is_monitoring := false, status := "Not monitoring" }
  else
    { s with
      is_monitoring := true
      status := "Monitoring " ++ target ++ "..."
      start_time := some now
      last_check := some now }

/-- The per-frame scheduler check at the end of `update`: when monitoring
and at least one second has elapsed since `last_check`, dispatch a probe
cycle and reset `last_check` to now.  (`last_check.elapsed()` saturates
at zero; since `1 > 0` the unsaturated comparison is equivalent.) -/
def schedulerTick (s : MonitorState) (inp : ProbeInput) :
    MonitorState × Option LogFile :=
  if s.is_monitoring then
    match s.last_check with
    | some t =>
      if 1 ≤ inp.now - t then
        let r := checkConnectionCycle s inp
        ({ r.1 with last_check := some inp.now }, r.2)
      else (s, none)
    | none => (s, none)
  else (s, none)

/-- `InternetMonitor::log_data` (the "Log Data" button): filter the
retained samples to those whose `elapsed_seconds`, read as a duration,
strictly exceeds `(now() - 100 s).duration_since(start_time)` (an
`Instant` difference, hence saturating at zero), compute the average over
ALL retained samples, and render to the fixed file name `"log.txt"`.
Returns `(file_name, content)`; the subsequent `log_status := "✔"` marker
and its 2-second timer are modelled in `applyEvent`. -/
def logData (s : MonitorState) (now : ℚ) (stamp : String) :
    String × String :=
  let start_time := s.start_time.getD now
  let window : ℚ := max 0 ((now - 100) - start_time)
  let filtered := s.response_times.filter (fun p => decide (window < p.1))
  let content := renderLog stamp filtered (meanLat s.response_times)
    s.longest_response_time s.total_data_sent
  ("log.txt", content)

/-- A file system as a name-to-content association; `File::create`
truncates, so a write replaces any previous content under the name. -/
def fsWrite (fs : List (String × String)) (name content : String) :
    List (String × String) :=
  (name, content) :: fs.filter (fun e => !(e.1 == name))

/-- The UI events that mutate the monitor state: the start/stop button,
the "Clear Data" button, the "Log Data" button (whose file output is
modelled by `logData`), a frame's scheduler check, and the firing of a
spawned status timer. -/
inductive Event where
  | toggle (now : ℚ)
  | clearPress
  | exportPress (now : ℚ) (stamp : String)
  | tick (inp : ProbeInput)
  | timerFired
deriving DecidableEq, Repr

/-- Whether an event is a press of the start/stop button. -/
def isToggle : Event → Bool
  | .toggle _ => true
  | _ => false

/-- Apply one event to the state. -/
def applyEvent (s : MonitorState) : Event → MonitorState
  | .toggle now => toggleMonitoring s now
  | .clearPress => (clearData s).1
  | .exportPress _ _ => { s with log_status := some "✔" }
  | .tick inp => (schedulerTick s inp).1
  | .timerFired => { s with log_status := none }

/-- Run a sequence of events. -/
def runEvents (s : MonitorState) (evs : List Event) : MonitorState :=
  evs.foldl applyEvent s

/-- A session started at instant 0 from the default state. -/
def startedAt0 : MonitorState := toggleMonitoring initState 0

/-- A probe input whose hostname resolution fails. -/
def failProbe : ProbeInput :=
  { resolved := false, pingOk := false, pingMillis := 0, now := 0
    stampCompact := "20250101120000", stampHuman := "2025-01-01 12:00:00" }

/-- A successful 50 ms probe at instant 0. -/
def probeA : ProbeInput :=
  { resolved := true, pingOk := true, pingMillis := 50, now := 0
    stampCompact := "20250101120000", stampHuman := "2025-01-01 12:00:00" }

/-- A successful 60 ms probe at instant 1. -/
def probeB : ProbeInput :=
  { resolved := true, pingOk := true, pingMillis := 60, now := 1
    stampCompact := "20250101120001", stampHuman := "2025-01-01 12:00:01" }

/-- A successful 200 ms probe at instant 2. -/
def probeC : ProbeInput :=
  { resolved := true, pingOk := true, pingMillis := 200, now := 2
    stampCompact := "20250101120002", stampHuman := "2025-01-01 12:00:02" }

/-- A state whose sample buffer is exactly at the 100-entry bound. -/
def fullBufferState : MonitorState :=
  { startedAt0 with response_times := List.replicate 100 ((0 : ℚ), (0 : ℚ)) }

/-! ## Lemmas about a single probe cycle -/

theorem cycle_unresolved {s : MonitorState} {inp : ProbeInput}
    (h : inp.resolved = false) : checkConnectionCycle s inp = (s, none) := by
  simp [checkConnectionCycle, h]

theorem cycle_is_monitoring (s : MonitorState) (inp : ProbeInput) :
    (checkConnectionCycle s inp).1.is_monitoring = s.is_monitoring := by
  unfold checkConnectionCycle
  split <;> rfl

theorem cycle_start_time (s : MonitorState) (inp : ProbeInput) :
    (checkConnectionCycle s inp).1.start_time = s.start_time := by
  unfold checkConnectionCycle
  split <;> rfl

theorem cycle_last_check (s : MonitorState) (inp : ProbeInput) :
    (checkConnectionCycle s inp).1.last_check = s.last_check := by
  unfold checkConnectionCycle
  split <;> rfl

theorem cycle_total_resolved {inp : ProbeInput} (s : MonitorState)
    (h : inp.resolved = true) :
    (checkConnectionCycle s inp).1.total_data_sent = s.total_data_sent + 32 := by
  simp [checkConnectionCycle, h]

theorem cycle_longest_resolved {inp : ProbeInput} (s : MonitorState)
    (h : inp.resolved = true) :
    (checkConnectionCycle s inp).1.longest_response_time
      = max s.longest_response_time (responseTimeMs inp) := by
  rcases lt_or_le s.longest_response_time (responseTimeMs inp) with hlt | hle
  · simp [checkConnectionCycle, h, hlt, max_eq_right hlt.le]
  · have hn : ¬ s.longest_response_time < responseTimeMs inp := not_lt.mpr hle
    simp [checkConnectionCycle, h, hn, max_eq_left hle]

theorem cycle_samples_resolved {inp : ProbeInput} (s : MonitorState)
    (h : inp.resolved = true) :
    (checkConnectionCycle s inp).1.response_times =
      if 100 < (s.response_times ++ [cycleSample s inp]).length
      then (s.response_times ++ [cycleSample s inp]).tail
      else s.response_times ++ [cycleSample s inp] := by
  simp [checkConnectionCycle, h]

theorem cycle_no_trigger {s : MonitorState} {inp : ProbeInput}
    (h : inp.resolved = true) (ht : logTrigger s inp = false) :
    (checkConnectionCycle s inp).2 = none ∧
      (checkConnectionCycle s inp).1.last_log_time = s.last_log_time := by
  simp [checkConnectionCycle, h, ht]

theorem cycle_trigger_time {s : MonitorState} {inp : ProbeInput}
    (h : inp.resolved = true) (ht : logTrigger s inp = true) :
    ((checkConnectionCycle s inp).2.toList.map (fun f => f.time)) = [inp.now] ∧
      (checkConnectionCycle s inp).1.last_log_time = some inp.now := by
  simp [checkConnectionCycle, h, ht]

theorem trigger_debounce {s : MonitorState} {inp : ProbeInput}
    (ht : logTrigger s inp = true) :
    ∀ u, s.last_log_time = some u → u + 60 ≤ inp.now := by
  intro u hu
  have ht' := ht
  simp only [logTrigger, Bool.and_eq_true] at ht'
  have hdb : debounceOk s inp.now = true := ht'.2
  unfold debounceOk at hdb
  rw [hu] at hdb
  simp only [decide_eq_true_eq] at hdb
  linarith

/-! ## Lemmas about probe-cycle sequences -/

theorem runProbes_cons (s : MonitorState) (inp : ProbeInput)
    (rest : List ProbeInput) :
    runProbes s (inp :: rest) =
      ((runProbes (checkConnectionCycle s inp).1 rest).1,
        (checkConnectionCycle s inp).2.toList ++
          (runProbes (checkConnectionCycle s inp).1 rest).2) := rfl

theorem creationTimes_cons (s : MonitorState) (inp : ProbeInput)
    (rest : List ProbeInput) :
    creationTimes s (inp :: rest) =
      ((checkConnectionCycle s inp).2.toList.map (fun f => f.time)) ++
        creationTimes (checkConnectionCycle s inp).1 rest := by
  simp [creationTimes, runProbes_cons]

theorem creations_lb :
    ∀ (l : List ProbeInput) (s : MonitorState) (u : ℚ),
      s.last_log_time = some u → ∀ τ ∈ creationTimes s l, u + 60 ≤ τ := by
  intro l
  induction l with
  | nil => intro s u _ τ hτ; simp [creationTimes, runProbes] at hτ
  | cons inp rest ih =>
    intro s u hu τ hτ
    rw [creationTimes_cons] at hτ
    cases hr : inp.resolved with
    | false =>
      rw [cycle_unresolved hr] at hτ
      simp only [Option.toList_none, List.map_nil, List.nil_append] at hτ
      exact ih s u hu τ hτ
    | true =>
      cases htr : logTrigger s inp with
      | false =>
        obtain ⟨h2, hlt⟩ := cycle_no_trigger hr htr
        rw [h2] at hτ
        simp only [Option.toList_none, List.map_nil, List.nil_append] at hτ
        exact ih _ u (by rw [hlt]; exact hu) τ hτ
      | true =>
        obtain ⟨h2, hlt⟩ := cycle_trigger_time hr htr
        rw [h2] at hτ
        have hdb := trigger_debounce htr u hu
        rcases List.mem_append.mp hτ with hmem | hmem
        · have hτn : τ = inp.now := by simpa using hmem
          linarith [hτn ▸ hdb]
        · have := ih _ inp.now hlt τ hmem
          linarith

theorem foldr_max_pull (l : List ℚ) (b q : ℚ) :
    l.foldr max (max b q) = max q (l.foldr max b) := by
  induction l with
  | nil => simp [max_comm]
  | cons a l ih =>
    simp only [List.foldr_cons, ih]
    rw [max_left_comm]

theorem runProbes_longest (l : List ProbeInput) : ∀ s : MonitorState,
    (runProbes s l).1.longest_response_time
      = (observedLatencies l).foldr max s.longest_response_time := by
  induction l with
  | nil => intro s; simp [runProbes, observedLatencies]
  | cons inp rest ih =>
    intro s
    rw [runProbes_cons]
    cases hr : inp.resolved with
    | false =>
      have hobs : observedLatencies (inp :: rest) = observedLatencies rest := by
        simp [observedLatencies, observedLatency, hr]
      rw [cycle_unresolved hr, hobs]
      exact ih s
    | true =>
      have hobs : observedLatencies (inp :: rest)
          = responseTimeMs inp :: observedLatencies rest := by
        simp [observedLatencies, observedLatency, hr]
      rw [hobs]
      show (runProbes (checkConnectionCycle s inp).1 rest).1.longest_response_time = _
      rw [ih, cycle_longest_resolved s hr, List.foldr_cons]
      exact foldr_max_pull _ _ _

theorem cycle_len_le (s : MonitorState) (inp : ProbeInput)
    (h : s.response_times.length ≤ 100) :
    (checkConnectionCycle s inp).1.response_times.length ≤ 100 := by
  cases hr : inp.resolved with
  | false => rw [cycle_unresolved hr]; exact h
  | true =>
    rw [cycle_samples_resolved s hr]
    by_cases hlen : 100 < (s.response_times ++ [cycleSample s inp]).length
    · rw [if_pos hlen]
      simp only [List.length_tail, List.length_append, List.length_singleton] at *
      omega
    · rw [if_neg hlen]
      omega

theorem applyEvent_len_le (s : MonitorState) (e : Event)
    (h : s.response_times.length ≤ 100) :
    (applyEvent s e).response_times.length ≤ 100 := by
  cases e with
  | toggle now =>
    simp only [applyEvent, toggleMonitoring]
    split <;> exact h
  | clearPress => simp [applyEvent, clearData]
  | exportPress now stamp => exact h
  | tick inp =>
    simp only [applyEvent, schedulerTick]
    split
    · split
      · split
        · simpa using cycle_len_le s inp h
        · exact h
      · exact h
    · exact h
  | timerFired => exact h

theorem runEvents_len_le :
    ∀ (evs : List Event) (s : MonitorState),
      s.response_times.length ≤ 100 →
      (runEvents s evs).response_times.length ≤ 100 := by
  intro evs
  induction evs with
  | nil => intro s h; exact h
  | cons e evs ih => intro s h; exact ih _ (applyEvent_len_le s e h)

theorem runEvents_times_inv :
    ∀ (evs : List Event) (s : MonitorState) (b : Bool),
      s.start_time.isSome = b → s.last_check.isSome = b →
      (s.is_monitoring = true → b = true) →
      (runEvents s evs).start_time.isSome = (b || evs.any isToggle) ∧
        (runEvents s evs).last_check.isSome = (b || evs.any isToggle) := by
  intro evs
  induction evs with
  | nil => intro s b h1 h2 _; simp [runEvents, h1, h2]
  | cons e evs ih =>
    intro s b h1 h2 h3
    have hrun : runEvents s (e :: evs) = runEvents (applyEvent s e) evs := rfl
    rw [hrun, List.any_cons]
    cases e with
    | toggle now =>
      cases hm : s.is_monitoring with
      | false =>
        have := ih (applyEvent s (.toggle now)) true
          (by simp [applyEvent, toggleMonitoring, hm])
          (by simp [applyEvent, toggleMonitoring, hm])
          (fun _ => rfl)
        simpa [isToggle] using this
      | true =>
        have hb : b = true := h3 hm
        subst hb
        have := ih (applyEvent s (.toggle now)) true
          (by simp [applyEvent, toggleMonitoring, hm, h1])
          (by simp [applyEvent, toggleMonitoring, hm, h2])
          (fun _ => rfl)
        simpa [isToggle] using this
    | clearPress =>
      have := ih (applyEvent s .clearPress) b
        (by simpa [applyEvent, clearData] using h1)
        (by simpa [applyEvent, clearData] using h2)
        (by simp [applyEvent, clearData])
      simpa [isToggle] using this
    | exportPress now stamp =>
      have := ih (applyEvent s (.exportPress now stamp)) b h1 h2 h3
      simpa [isToggle] using this
    | tick inp =>
      cases hm : s.is_monitoring with
      | false =>
        have hA : applyEvent s (.tick inp) = s := by
          simp [applyEvent, schedulerTick, hm]
        rw [hA]
        simpa [isToggle] using ih s b h1 h2 h3
      | true =>
        have hb : b = true := h3 hm
        subst hb
        obtain ⟨t, ht⟩ := Option.isSome_iff_exists.mp h2
        have h1' : (applyEvent s (Event.tick inp)).start_time.isSome = true := by
          simp only [applyEvent, schedulerTick, hm, ht, if_true]
          split
          · simpa [cycle_start_time] using h1
          · exact h1
        have h2' : (applyEvent s (Event.tick inp)).last_check.isSome = true := by
          simp only [applyEvent, schedulerTick, hm, ht, if_true]
          split
          · simp
          · exact h2
        have := ih (applyEvent s (.tick inp)) true h1' h2' (fun _ => rfl)
        simpa [isToggle] using this
    | timerFired =>
      have := ih (applyEvent s .timerFired) b h1 h2 h3
      simpa [isToggle] using this

/-! ## The claims -/

/-- C1: for a monitoring session with no Clear, `longest_response_time` is
monotonically non-decreasing across probe cycles, and from a freshly
started session it equals the maximum latency over all samples ever
observed — including ones since evicted from the bounded buffer, since
`observedLatencies` counts every recorded cycle regardless of later
eviction. -/
theorem longest_latency_high_water :
    (∀ (s : MonitorState) (inp : ProbeInput),
        s.longest_response_time ≤
          (checkConnectionCycle s inp).1.longest_response_time) ∧
    (∀ (t : ℚ) (l : List ProbeInput),
        (runProbes (toggleMonitoring initState t) l).1.longest_response_time
          = listMax0 (observedLatencies l)) := by
  constructor
  · intro s inp
    cases hr : inp.resolved with
    | false => rw [cycle_unresolved hr]
    | true =>
      rw [cycle_longest_resolved s hr]
      exact le_max_left _ _
  · intro t l
    rw [runProbes_longest]
    rfl

/-- C2: threshold-triggered log files are never created less than 60
seconds apart — for any starting state and any sequence of probe results,
the creation instants of the produced log files are pairwise at least 60
seconds apart, because creation requires `last_log_time` to be unset or
at least 60 seconds old and sets it on each creation. -/
theorem threshold_log_debounce_60s :
    ∀ (s : MonitorState) (l : List ProbeInput),
      List.Pairwise (fun a b => a + 60 ≤ b) (creationTimes s l) := by
  intro s l
  induction l generalizing s with
  | nil => simp [creationTimes, runProbes]
  | cons inp rest ih =>
    rw [creationTimes_cons]
    cases hr : inp.resolved with
    | false =>
      rw [cycle_unresolved hr]
      simpa using ih s
    | true =>
      cases htr : logTrigger s inp with
      | false =>
        obtain ⟨h2, _⟩ := cycle_no_trigger hr htr
        rw [h2]
        simpa using ih _
      | true =>
        obtain ⟨h2, hlt⟩ := cycle_trigger_time hr htr
        rw [h2, List.singleton_append, List.pairwise_cons]
        exact ⟨fun b hb => creations_lb rest _ inp.now hlt b hb, ih _⟩

/-- C3: after any sequence of events the sample buffer holds at most 100
samples, and a probe cycle that finds the buffer at the 100-entry bound
evicts exactly the front (oldest) sample while appending the new one. -/
theorem sample_buffer_bounded_fifo :
    (∀ evs : List Event,
        (runEvents initState evs).response_times.length ≤ 100) ∧
    (∀ (s : MonitorState) (inp : ProbeInput), inp.resolved = true →
        s.response_times.length = 100 →
        (checkConnectionCycle s inp).1.response_times
          = s.response_times.tail ++ [cycleSample s inp]) := by
  constructor
  · intro evs
    exact runEvents_len_le evs initState (by simp [initState])
  · intro s inp hr hlen
    rw [cycle_samples_resolved s hr, if_pos ?_]
    · have hne : s.response_times ≠ [] := by
        intro hnil
        rw [hnil] at hlen
        simp at hlen
      exact List.tail_append_singleton_of_ne_nil hne
    · simp [List.length_append, hlen]

/-- Witness for the FIFO-eviction part of C3, at a concrete state whose
buffer holds exactly 100 samples. -/
theorem sample_buffer_bounded_fifo_w :
    (checkConnectionCycle fullBufferState probeA).1.response_times
      = fullBufferState.response_times.tail
          ++ [cycleSample fullBufferState probeA] :=
  sample_buffer_bounded_fifo.2 fullBufferState probeA rfl
    (by simp [fullBufferState])

/-- C4 counterexample: at a freshly started session, a
resolution-failure cycle does NOT append the latency-0 sample the claim
predicts — the buffer is left unchanged. -/
theorem resolution_failure_appends_no_sample_cx :
    ¬ ((checkConnectionCycle startedAt0 failProbe).1.response_times
        = startedAt0.response_times ++ [(0, 0)]) := by
  decide

/-- C4 (amended): when hostname resolution fails the probe task returns
early: no sample at all is appended to the sample store and no log file
is created — the cycle records nothing. -/
theorem resolution_failure_appends_no_sample :
    ∀ (s : MonitorState) (inp : ProbeInput), inp.resolved = false →
      (checkConnectionCycle s inp).1.response_times = s.response_times ∧
        (checkConnectionCycle s inp).2 = none := by
  intro s inp h
  rw [cycle_unresolved h]
  exact ⟨rfl, rfl⟩

/-- Witness for the amended C4 at a concrete failing resolution. -/
theorem resolution_failure_appends_no_sample_w :
    (checkConnectionCycle startedAt0 failProbe).1.response_times
        = startedAt0.response_times ∧
      (checkConnectionCycle startedAt0 failProbe).2 = none :=
  resolution_failure_appends_no_sample startedAt0 failProbe rfl

/-- C5 counterexample: a cycle whose hostname resolution fails does NOT
increase `total_data_sent` by 32 — it leaves the counter unchanged. -/
theorem total_bytes_per_cycle_cx :
    ¬ ((checkConnectionCycle startedAt0 failProbe).1.total_data_sent
        = startedAt0.total_data_sent + 32) := by
  decide

/-- C5 (amended): `total_data_sent` increases by exactly 32 for every
probe cycle whose resolution succeeds, whether or not the ping itself
succeeds; a cycle whose hostname resolution fails leaves it unchanged. -/
theorem total_bytes_per_cycle :
    ∀ (s : MonitorState) (inp : ProbeInput),
      (inp.resolved = true →
        (checkConnectionCycle s inp).1.total_data_sent
          = s.total_data_sent + 32) ∧
      (inp.resolved = false →
        (checkConnectionCycle s inp).1.total_data_sent = s.total_data_sent) := by
  intro s inp
  constructor
  · intro h
    exact cycle_total_resolved s h
  · intro h
    rw [cycle_unresolved h]

/-- Witness for the amended C5: one successful-resolution cycle adds 32,
one failing-resolution cycle adds nothing. -/
theorem total_bytes_per_cycle_w :
    (checkConnectionCycle startedAt0 probeA).1.total_data_sent
        = startedAt0.total_data_sent + 32 ∧
      (checkConnectionCycle startedAt0 failProbe).1.total_data_sent
        = startedAt0.total_data_sent :=
  ⟨(total_bytes_per_cycle startedAt0 probeA).1 rfl,
    (total_bytes_per_cycle startedAt0 failProbe).2 rfl⟩

/-- C6 counterexample: after Start at instant 0 followed by Clear,
monitoring is off and no Start has happened since the Clear, yet
`start_time` and `last_check` are still `some 0` — Clear does not reset
them, contradicting the claimed iff. -/
theorem clear_preserves_times_cx :
    (runEvents initState [Event.toggle 0, Event.clearPress]).is_monitoring
        = false ∧
      (runEvents initState [Event.toggle 0, Event.clearPress]).start_time
        = some 0 ∧
      (runEvents initState [Event.toggle 0, Event.clearPress]).last_check
        = some 0 := by
  decide

/-- C6 (amended): `start_time` and `last_check` are `Some` iff at least
one Start has occurred since process start; Clear stops monitoring but
never resets them. -/
theorem times_set_iff_toggled :
    ∀ evs : List Event,
      (runEvents initState evs).start_time.isSome = evs.any isToggle ∧
        (runEvents initState evs).last_check.isSome = evs.any isToggle := by
  intro evs
  have := runEvents_times_inv evs initState false rfl rfl (by simp [initState])
  simpa using this

set_option maxRecDepth 16000 in
/-- C7: from a fresh session (no prior debounce, zero high-water mark),
the probe results `(0,50), (1,60), (2,200)` trigger the threshold logger
exactly once, after the third sample; `longest_response_time` becomes
200; and the created file reports average response time 103 ms and
longest response time 200 ms. -/
theorem scenario_burst_trigger :
    (runProbes startedAt0 [probeA, probeB]).2 = [] ∧
    (runProbes startedAt0 [probeA, probeB, probeC]).2 =
      [{ name := "log_20250101120002.txt"
         content := "Log Created: 2025-01-01 12:00:02\nPing Target: google.com\nAverage Response Time: 103 ms\nLongest Response Time: 200 ms\nTotal Data Sent: 96 bytes\n\n0 s, 50 ms\n1 s, 60 ms\n2 s, 200 ms\n"
         time := 2 }] ∧
    (runProbes startedAt0 [probeA, probeB, probeC]).1.longest_response_time
      = 200 := by
  with_unfolding_all decide

/-- C8: the manual export writes to the fixed name `"log.txt"`
(truncating any previous content under that name), its body lists exactly
the retained samples whose `elapsed_seconds` strictly exceeds the
duration `(now() - 100 s) - start_time` (an `Instant` difference, hence
saturating at zero), and the reported average is the mean over ALL
retained samples, not only the filtered ones. -/
theorem manual_export_window_average_file :
    ∀ (s : MonitorState) (now : ℚ) (stamp : String)
      (fs : List (String × String)),
      (logData s now stamp).1 = "log.txt" ∧
      (logData s now stamp).2 =
        renderLog stamp
          (s.response_times.filter
            (fun p => decide (max 0 ((now - 100) - s.start_time.getD now) < p.1)))
          (meanLat s.response_times) s.longest_response_time
          s.total_data_sent ∧
      List.lookup "log.txt"
          (fsWrite fs "log.txt" (logData s now stamp).2)
        = some (logData s now stamp).2 := by
  intro s now stamp fs
  refine ⟨rfl, rfl, ?_⟩
  simp [fsWrite, List.lookup]

/-- C9: Clear stops monitoring, empties the samples, zeroes
`total_data_sent`, sets the status text to "Not monitoring", sets the
transient "Data cleared" marker together with a 2-second timer, firing
which clears the marker — while `longest_response_time` and the debounce
timestamp `last_log_time` are left untouched. -/
theorem clear_resets_and_marks :
    ∀ s s' : MonitorState,
      (clearData s).1.is_monitoring = false ∧
      (clearData s).1.response_times = [] ∧
      (clearData s).1.total_data_sent = 0 ∧
      (clearData s).1.status = "Not monitoring" ∧
      (clearData s).1.log_status = some "Data cleared" ∧
      (clearData s).2 = DelayedAction.clearLogStatus 2 ∧
      (clearData s).1.longest_response_time = s.longest_response_time ∧
      (clearData s).1.last_log_time = s.last_log_time ∧
      (applyDelayed s' (clearData s).2).log_status = none := by
  intro s s'
  exact ⟨rfl, rfl, rfl, rfl, rfl, rfl, rfl, rfl, rfl⟩

/-- C10: when hostname resolution fails the probe task returns before any
state update — the whole state (samples, status, counters, high-water
mark, debounce timestamp) is exactly as before and no log is created. -/
theorem resolution_failure_frame :
    ∀ (s : MonitorState) (inp : ProbeInput), inp.resolved = false →
      checkConnectionCycle s inp = (s, none) := by
  intro s inp h
  exact cycle_unresolved h

/-- Witness for C10 at a concrete failing resolution. -/
theorem resolution_failure_frame_w :
    checkConnectionCycle startedAt0 failProbe = (startedAt0, none) :=
  resolution_failure_frame startedAt0 failProbe rfl

end InternetMonitor
